import Mathlib

/-!
Verification development for the mu editor (src/mu/editor.py and
src/mu/interface.py).

The editor logic in src/mu/editor.py drives an external View and the
uflash/serial helpers.  Pure decision logic is translated directly from the
Python source; the environment (file system reads, dialog answers, device
discovery) is passed in as explicit function or value parameters, and the
effects the code performs (files written, messages shown, tabs added) are
returned as explicit data.

The uflash module (mu/contrib/uflash.py) and the serial find_microbit helper
are referenced by editor.py but are not part of the provided sources; the
definitions below that concern them are modelled from the specification
(sections 4.1 and 4.2) and are marked as such in their doc comments.
-/

namespace Mu

/-! ## ImageEncoder model (uflash), modelled from the spec -/

/-- Modelled from the spec: errors of the ImageEncoder contract (section 4.2);
`ScriptTooLarge` for an oversized script on encode, `NoScriptFound` when no
valid embedded region exists on decode. -/
inductive ImgError
  | ScriptTooLarge
  | NoScriptFound
deriving DecidableEq

/-- Modelled from the spec: one fixed-format record of the firmware image,
carrying an address, a record type (0 = data, 1 = end-of-data marker), a
payload and a checksum (section 3, FirmwareImage; glossary, record format). -/
structure Record where
  addr : Nat
  rtype : Nat
  payload : List Nat
  chksum : Nat
deriving DecidableEq

/-- Modelled from the spec: checksum of a record, computed over raw byte
values (length, address bytes, type, payload), two-complement mod 256. -/
def checksumBytes (addr rtype : Nat) (payload : List Nat) : Nat :=
  (256 - (payload.length + addr / 256 + addr % 256 + rtype + payload.sum) % 256) % 256

/-- Modelled from the spec: fixed start address of the appended script
region within the firmware image. -/
def SCRIPT_ADDR : Nat := 253952

/-- Modelled from the spec: maximum script size in bytes accepted by the
record format (capacity of the appended region). -/
def MAX_SCRIPT : Nat := 8188

/-- Chunking helper with an explicit fuel argument (fuel at least the list
length suffices, since every step consumes at least one element). -/
def chunk16Fuel : Nat → List Nat → List (List Nat)
  | _, [] => []
  | 0, l => [l]
  | fuel + 1, x :: xs => (x :: xs.take 15) :: chunk16Fuel fuel (xs.drop 15)

/-- Modelled from the spec: split a byte sequence into payload chunks of at
most 16 bytes (fixed maximum payload per record, section 4.2). -/
def chunk16 (l : List Nat) : List (List Nat) :=
  chunk16Fuel l.length l

/-- Modelled from the spec: build consecutive data records from payload
chunks, addresses monotonically increasing from the given start. -/
def mkRecords : Nat → List (List Nat) → List Record
  | _, [] => []
  | a, c :: cs => ⟨a, 0, c, checksumBytes a 0 c⟩ :: mkRecords (a + 16) cs

/-- Modelled from the spec: header of the embedded script region, the
reserved marker bytes (77 80, the ASCII codes of M and P) followed by the
script length as two little-endian bytes. -/
def scriptHeader (s : List Nat) : List Nat :=
  [77, 80, s.length % 256, s.length / 256]

/-- Modelled from the spec: the records of the embedded script region for a
script `s`: header plus script bytes, chunked and address-tagged from
`SCRIPT_ADDR` upward. -/
def scriptRecords (s : List Nat) : List Record :=
  mkRecords SCRIPT_ADDR (chunk16 (scriptHeader s ++ s))

/-- Modelled from the spec: uflash.hexlify - serialize a script into the
record format, failing with `ScriptTooLarge` beyond the format capacity. -/
def hexlify (s : List Nat) : Except ImgError (List Record) :=
  if s.length > MAX_SCRIPT then Except.error ImgError.ScriptTooLarge
  else Except.ok (scriptRecords s)

/-- Modelled from the spec: the end-of-data marker record required at the
end of a well-formed image. -/
def EOF_RECORD : Record := ⟨0, 1, [], checksumBytes 0 1 []⟩

/-- Modelled from the spec: uflash.embed_hex - append the script records
after the records of the base runtime image and terminate with the
end-of-data marker. -/
def embed_hex (base : List Record) (py : List Record) : List Record :=
  base ++ py ++ [EOF_RECORD]

/-- Modelled from the spec: a record belongs to the embedded script region
when it is a data record in the appended address range. -/
def isScriptRecord (r : Record) : Bool :=
  r.rtype == 0 && decide (SCRIPT_ADDR ≤ r.addr)

/-- Modelled from the spec: uflash.extract_script - scan the appended
address range for script records, concatenate their payloads in address
order, check the reserved marker and decode the script bytes; fails with
`NoScriptFound` when no valid embedded region exists. -/
def extract_script (img : List Record) : Except ImgError (List Nat) :=
  let region := img.filter isScriptRecord
  match (region.map Record.payload).flatten with
  | 77 :: 80 :: lo :: hi :: rest => Except.ok (rest.take (lo + 256 * hi))
  | _ => Except.error ImgError.NoScriptFound

/-- The embedding composition performed by Editor.flash (editor.py lines
100-103): hexlify the script and embed the result into the base image. -/
def embed (base : List Record) (s : List Nat) : Except ImgError (List Record) :=
  (hexlify s).map (fun py => embed_hex base py)

/-! ## REPL session state (editor.py, class REPL and Editor.add_repl,
Editor.remove_repl) -/

/-- The REPL object of editor.py: a reference to the associated port. -/
structure REPL where
  port : String
deriving DecidableEq

/-- Host platform discriminator used by the REPL constructor (os.name). -/
inductive OSName
  | posix
  | nt
  | other
deriving DecidableEq

/-- REPL.init from editor.py lines 47-56: on posix the port is referenced
under /dev, on nt it is used as is, on any other platform a
NotImplementedError is raised (modelled as `none`). -/
def mkREPL (osn : OSName) (port : String) : Option REPL :=
  match osn with
  | OSName.posix => some ⟨"/dev/" ++ port⟩
  | OSName.nt => some ⟨port⟩
  | OSName.other => none

/-- The Editor state relevant to the live-session claims: the single
optional REPL reference and the theme, as set by Editor.init. -/
structure EditorState where
  repl : Option REPL
  theme : String
deriving DecidableEq

/-- Outcome of Editor.add_repl. `alreadyOpen` is the raised RuntimeError
with message REPL already running; `deviceNotFound` and `connectFailed` are
the two show_message branches; `notImplemented` is the uncaught
NotImplementedError from the REPL constructor. -/
inductive AddReplOutcome
  | alreadyOpen
  | opened
  | connectFailed
  | deviceNotFound
  | notImplemented
deriving DecidableEq

/-- Editor.add_repl (editor.py lines 118-142).  The serial device lookup
(find_microbit, not under the provided sources) is passed in as `findPort`;
`viewOk` tells whether the View accepted the REPL pane (false models the
caught IOError). -/
def add_repl (st : EditorState) (osn : OSName) (findPort : Option String)
    (viewOk : Bool) : EditorState × AddReplOutcome :=
  if st.repl.isSome then (st, AddReplOutcome.alreadyOpen)
  else
    match findPort with
    | some port =>
      match mkREPL osn port with
      | none => (st, AddReplOutcome.notImplemented)
      | some r =>
        if viewOk then ({ st with repl := some r }, AddReplOutcome.opened)
        else ({ st with repl := none }, AddReplOutcome.connectFailed)
    | none => (st, AddReplOutcome.deviceNotFound)

/-- Outcome of Editor.remove_repl. `notOpen` is the raised RuntimeError
with message REPL not running. -/
inductive RemoveReplOutcome
  | notOpen
  | removed
deriving DecidableEq

/-- Editor.remove_repl (editor.py lines 144-151). -/
def remove_repl (st : EditorState) : EditorState × RemoveReplOutcome :=
  match st.repl with
  | none => (st, RemoveReplOutcome.notOpen)
  | some _ => ({ st with repl := none }, RemoveReplOutcome.removed)

/-! ## Documents, quit and session persistence (editor.py Editor.quit,
interface.py Window.modified and Window.widgets) -/

/-- A document/tab as the core sees it: optional path, text, modified flag
(spec section 3; realized by EditorPane in interface.py). -/
structure Document where
  path : Option String
  text : String
  modified : Bool
deriving DecidableEq

/-- Python truthiness of a tab path: None and the empty string are falsy. -/
def truthyPath : Option String → Bool
  | none => false
  | some p => p != ""

/-- Window.modified (interface.py lines 359-364): true when any open
widget is modified. -/
def view_modified (widgets : List Document) : Bool :=
  widgets.any (fun w => w.modified)

/-- The session list built by Editor.quit (editor.py lines 252-255): the
paths of the open widgets whose path is truthy, in order. -/
def sessionPaths (widgets : List Document) : List String :=
  widgets.foldl
    (fun acc w => if truthyPath w.path then acc ++ [w.path.getD ""] else acc) []

/-- Answer of the confirmation dialog (Window.show_confirmation). -/
inductive ConfirmResult
  | ok
  | cancel
deriving DecidableEq

/-- Result of Editor.quit: the session file content afterwards (none when
the file does not exist) and whether sys.exit was reached. -/
structure QuitResult where
  sessionFile : Option (List String)
  exited : Bool
deriving DecidableEq

/-- Editor.quit (editor.py lines 240-258).  `confirm` is the answer the
user would give to the confirmation dialog; it is consulted only when some
widget is modified.  `sessionFile` is the prior content of the session
file. -/
def quit (widgets : List Document) (confirm : ConfirmResult)
    (sessionFile : Option (List String)) : QuitResult :=
  if view_modified widgets then
    if confirm = ConfirmResult.cancel then ⟨sessionFile, false⟩
    else ⟨some (sessionPaths widgets), true⟩
  else ⟨some (sessionPaths widgets), true⟩

/-! ## Session restore (editor.py Editor.restore_session) -/

/-- The placeholder script seeded into the default tab (editor.py line
87). -/
def DEFAULT_SCRIPT : String := "from microbit import *\n\n# Write code here :-)"

/-- Editor.restore_session (editor.py lines 69-88).  `sessionExists` models
os.path.exists(SESSION_FILE), `tabs` the parsed JSON list, `readFile` the
file system (none models a FileNotFoundError).  The result is the list of
(name, text) tabs added to the View, in order. -/
def restore_session (sessionExists : Bool) (tabs : List String)
    (readFile : String → Option String) : List (Option String × String) :=
  let added :=
    if sessionExists then
      tabs.foldl
        (fun acc tab =>
          match readFile tab with
          | none => acc
          | some text => acc ++ [(some tab, text)]) []
    else []
  if added.length = 0 then [(none, DEFAULT_SCRIPT)] else added

/-! ## Flash (editor.py Editor.flash) -/

/-- UTF-8 encoding of one character as raw byte values. -/
def utf8EncodeCharNat (c : Char) : List Nat :=
  let v := c.toNat
  if v < 128 then [v]
  else if v < 2048 then [192 + v / 64, 128 + v % 64]
  else if v < 65536 then [224 + v / 4096, 128 + (v / 64) % 64, 128 + v % 64]
  else [240 + v / 262144, 128 + (v / 4096) % 64, 128 + (v / 64) % 64, 128 + v % 64]

/-- tab.text().encode(utf-8) as a byte list. -/
def utf8Bytes (s : String) : List Nat :=
  s.data.flatMap utf8EncodeCharNat

/-- os.path.basename for posix paths: the part after the last slash. -/
def basename (p : String) : String :=
  ⟨(p.data.reverse.takeWhile (fun c => c != '/')).reverse⟩

/-- Python str.endswith on unicode code points. -/
def pyEndsWith (s suf : String) : Bool :=
  decide (suf.data <:+ s.data)

/-- EditorPane.label (interface.py lines 236-250): the basename of the path
or untitled, with a star suffix when modified. -/
def label (d : Document) : String :=
  let base := if truthyPath d.path then basename (d.path.getD "") else "untitled"
  if d.modified then base ++ " *" else base

/-- Outcome of Editor.flash. `raised` is an uncaught error from the
encoder. -/
inductive FlashOutcome
  | noTab
  | flashed
  | deviceNotFound
  | raised (e : ImgError)
deriving DecidableEq

/-- Effects of Editor.flash: outcome, files written (path, image) and
messages shown to the user. -/
structure FlashEffects where
  outcome : FlashOutcome
  writes : List (String × List Record)
  messages : List String
deriving DecidableEq

/-- Editor.flash (editor.py lines 90-116).  The current tab is `tab`
(none when there is no active editor), the runtime image records are
`base`, and the mass-storage lookup (uflash.find_microbit, not under the
provided sources) is passed in as `microbit`. -/
def flash (tab : Option Document) (base : List Record)
    (microbit : Option String) : FlashEffects :=
  match tab with
  | none => ⟨FlashOutcome.noTab, [], []⟩
  | some t =>
    match hexlify (utf8Bytes t.text) with
    | Except.error e => ⟨FlashOutcome.raised e, [], []⟩
    | Except.ok pyhex =>
      match microbit with
      | some path =>
        ⟨FlashOutcome.flashed,
          [(path ++ "/micropython.hex", embed_hex base pyhex)],
          ["Flashing \"" ++ label t ++ "\" onto the micro:bit."]⟩
      | none =>
        ⟨FlashOutcome.deviceNotFound, [],
          ["Could not find an attached BBC micro:bit."]⟩

/-! ## Save (editor.py Editor.save) -/

/-- Editor.save (editor.py lines 203-226).  `tab` is the current tab,
`dialog` the answer of get_save_path (the empty string models a cancelled
dialog); it is consulted only when the tab has no path.  Returns the
updated tab and the list of files written (path, text). -/
def save (tab : Option Document) (dialog : String) :
    Option Document × List (String × String) :=
  match tab with
  | none => (none, [])
  | some tab0 =>
    let tab1 := if tab0.path = none then { tab0 with path := some dialog } else tab0
    if truthyPath tab1.path then
      let p0 := tab1.path.getD ""
      let p := if pyEndsWith (basename p0) ".py" then p0 else p0 ++ ".py"
      (some { tab1 with path := some p, modified := false }, [(p, tab1.text)])
    else
      (some { tab1 with path := none }, [])

/-! ## Load (editor.py Editor.load) -/

/-- Text placed in a tab by Editor.load: read from a python file, or
decoded from a firmware image. -/
inductive LoadedText
  | fromFile (text : String)
  | fromHex (bytes : List Nat)
deriving DecidableEq

/-- Result of Editor.load. `silent` is the swallowed FileNotFoundError;
`raised` is an uncaught error from the extractor. -/
inductive LoadResult
  | added (name : Option String) (text : LoadedText)
  | silent
  | raised (e : ImgError)
deriving DecidableEq

/-- Effects of Editor.load: result and messages shown to the user. -/
structure LoadEffects where
  result : LoadResult
  messages : List String
deriving DecidableEq

/-- Editor.load (editor.py lines 178-201).  `path` is the answer of
get_load_path (the empty string models a cancelled dialog), `readText` the
file system for text reads and `readHex` the same file system with hex
file contents represented as parsed record lists (none models a
FileNotFoundError). -/
def load (path : String) (readText : String → Option String)
    (readHex : String → Option (List Record)) : LoadEffects :=
  if pyEndsWith path ".py" then
    match readText path with
    | none => ⟨LoadResult.silent, []⟩
    | some text => ⟨LoadResult.added (some path) (LoadedText.fromFile text), []⟩
  else
    match readHex path with
    | none => ⟨LoadResult.silent, []⟩
    | some img =>
      match extract_script img with
      | Except.error e => ⟨LoadResult.raised e, []⟩
      | Except.ok bytes => ⟨LoadResult.added none (LoadedText.fromHex bytes), []⟩

/-! ## Concrete fixtures used by witnesses and counterexamples -/

/-- File system where file b is missing and every other file holds its own
name as content. -/
def readFixture (p : String) : Option String :=
  if p = "b" then none else some p

/-- File system where every file is missing. -/
def readAllMissing (_p : String) : Option String :=
  none

/-- Text reader with no files, for the load fixtures. -/
def readTextNone (_p : String) : Option String :=
  none

/-- Hex reader with no files, for the load fixtures. -/
def readHexNone (_p : String) : Option (List Record) :=
  none

/-- A firmware image with no embedded script region: one runtime data
record below the script address, then the end-of-data marker. -/
def imgNoScript : List Record :=
  [⟨0, 0, [1, 2], checksumBytes 0 0 [1, 2]⟩, EOF_RECORD]

/-- Hex reader exposing `imgNoScript` under the name f.hex. -/
def readHexFixture (p : String) : Option (List Record) :=
  if p = "f.hex" then some imgNoScript else none

end Mu

namespace Mu

/-! ## Round-trip lemmas -/

theorem chunk16Fuel_flatten (fuel : Nat) (l : List Nat) (h : l.length ≤ fuel) :
    (chunk16Fuel fuel l).flatten = l := by
  induction fuel generalizing l with
  | zero =>
    cases l with
    | nil => rfl
    | cons x xs => simp at h
  | succ fuel ih =>
    cases l with
    | nil => rfl
    | cons x xs =>
      have hx : xs.length ≤ fuel := by
        simpa using h
      have hdrop : (xs.drop 15).length ≤ fuel := by
        rw [List.length_drop]
        omega
      simp only [chunk16Fuel, List.flatten, ih (xs.drop 15) hdrop]
      simp [List.take_append_drop]

theorem chunk16_flatten (l : List Nat) : (chunk16 l).flatten = l :=
  chunk16Fuel_flatten l.length l (Nat.le_refl _)

theorem mkRecords_map_payload (a : Nat) (cs : List (List Nat)) :
    (mkRecords a cs).map Record.payload = cs := by
  induction cs generalizing a with
  | nil => rfl
  | cons c cs ih => simp [mkRecords, ih]

theorem mkRecords_mem (a : Nat) (cs : List (List Nat)) (r : Record)
    (h : r ∈ mkRecords a cs) : r.rtype = 0 ∧ a ≤ r.addr := by
  induction cs generalizing a with
  | nil => cases h
  | cons c cs ih =>
    simp only [mkRecords, List.mem_cons] at h
    cases h with
    | inl h => subst h; exact ⟨rfl, Nat.le_refl a⟩
    | inr h =>
      have h2 := ih (a + 16) h
      exact ⟨h2.1, by omega⟩

theorem scriptRecords_filter (s : List Nat) :
    (scriptRecords s).filter isScriptRecord = scriptRecords s := by
  apply List.filter_eq_self.mpr
  intro r hr
  have h := mkRecords_mem SCRIPT_ADDR _ r hr
  simp [isScriptRecord, h.1, h.2]

theorem base_filter_nil (base : List Record)
    (hbase : ∀ r ∈ base, r.addr < SCRIPT_ADDR) :
    base.filter isScriptRecord = [] := by
  apply List.filter_eq_nil_iff.mpr
  intro r hr
  have := hbase r hr
  simp [isScriptRecord]
  intro _
  omega

/-- C1: for every byte sequence s within the format capacity and a base
runtime image whose own records lie below the script region, extracting the
embedded script region from the image produced by embedding s yields exactly
s. -/
theorem extract_embed_round_trip (base : List Record) (s : List Nat)
    (hbase : ∀ r ∈ base, r.addr < SCRIPT_ADDR)
    (hcap : s.length ≤ MAX_SCRIPT) :
    (embed base s).bind extract_script = Except.ok s := by
  have hhex : hexlify s = Except.ok (scriptRecords s) := by
    simp [hexlify, Nat.not_lt.mpr hcap]
  have hfilter :
      (embed_hex base (scriptRecords s)).filter isScriptRecord = scriptRecords s := by
    simp [embed_hex, List.filter_append, base_filter_nil base hbase,
      scriptRecords_filter]
    have : isScriptRecord EOF_RECORD = false := by decide
    simp [this]
  have hpayload :
      ((scriptRecords s).map Record.payload).flatten = scriptHeader s ++ s := by
    rw [scriptRecords, mkRecords_map_payload, chunk16_flatten]
  simp only [embed, hhex, Except.map, Except.bind, extract_script, hfilter, hpayload]
  have hcons :
      scriptHeader s ++ s = 77 :: 80 :: (s.length % 256) :: (s.length / 256) :: s := by
    simp [scriptHeader]
  rw [hcons]
  simp only []
  rw [Nat.mod_add_div s.length 256, List.take_length]

/-- Witness for C1 at a concrete base image and script. -/
theorem extract_embed_round_trip_witness :
    (embed [] [1, 2, 3]).bind extract_script = Except.ok [1, 2, 3] :=
  extract_embed_round_trip [] [1, 2, 3] (by simp) (by decide)

/-! ## Single live session (C2) -/

/-- C2: a second add_repl after a successful one, with no intervening
remove_repl, fails with the already-open RuntimeError; remove_repl while no
session exists fails with the not-open RuntimeError and leaves the state
unchanged.  At most one session exists by construction: the state carries a
single optional REPL reference. -/
theorem single_session_guard (st : EditorState) (osn osn2 : OSName)
    (f f2 : Option String) (v v2 : Bool) :
    ((add_repl st osn f v).2 = AddReplOutcome.opened →
      (add_repl (add_repl st osn f v).1 osn2 f2 v2).2 = AddReplOutcome.alreadyOpen) ∧
    (st.repl = none → remove_repl st = (st, RemoveReplOutcome.notOpen)) := by
  constructor
  · intro h
    by_cases hs : st.repl.isSome
    · simp [add_repl, hs] at h
    · cases f with
      | none => simp [add_repl, hs] at h
      | some port =>
        cases hm : mkREPL osn port with
        | none => simp [add_repl, hs, hm] at h
        | some r =>
          cases v with
          | false => simp [add_repl, hs, hm] at h
          | true => simp [add_repl, hs, hm]
  · intro h
    simp [remove_repl, h]

/-- Witness for C2: a concrete opened session rejects a second open, and a
close with no session fails as not open. -/
theorem single_session_guard_witness :
    (add_repl (add_repl ⟨none, "day"⟩ OSName.posix (some "ttyACM0") true).1
      OSName.posix (some "ttyACM0") true).2 = AddReplOutcome.alreadyOpen ∧
    remove_repl ⟨none, "day"⟩ = (⟨none, "day"⟩, RemoveReplOutcome.notOpen) :=
  ⟨(single_session_guard ⟨none, "day"⟩ OSName.posix OSName.posix
      (some "ttyACM0") (some "ttyACM0") true true).1 (by decide),
    (single_session_guard ⟨none, "day"⟩ OSName.posix OSName.posix
      (some "ttyACM0") (some "ttyACM0") true true).2 rfl⟩

/-! ## Quit (C3, C6) -/

/-- C3: quit with at least one modified open document and a cancelled
confirmation leaves the session file untouched and does not terminate the
process. -/
theorem quit_cancel_no_change (widgets : List Document)
    (fs : Option (List String)) (h : ∃ d ∈ widgets, d.modified = true) :
    quit widgets ConfirmResult.cancel fs = ⟨fs, false⟩ := by
  have hm : view_modified widgets = true := by
    simp only [view_modified, List.any_eq_true]
    exact h
  simp [quit, hm]

/-- Witness for C3 at a concrete modified document. -/
theorem quit_cancel_no_change_witness :
    quit [⟨none, "x", true⟩] ConfirmResult.cancel none = ⟨none, false⟩ :=
  quit_cancel_no_change [⟨none, "x", true⟩] none ⟨⟨none, "x", true⟩, by simp, rfl⟩

theorem sessionPaths_loop (widgets : List Document) (acc : List String) :
    widgets.foldl
      (fun acc w => if truthyPath w.path then acc ++ [w.path.getD ""] else acc) acc =
    acc ++ (widgets.filter (fun w => truthyPath w.path)).map (fun w => w.path.getD "") := by
  induction widgets generalizing acc with
  | nil => simp
  | cons w ws ih =>
    cases hw : truthyPath w.path with
    | false => simp [List.foldl_cons, hw, ih, List.filter_cons]
    | true => simp [List.foldl_cons, hw, ih, List.filter_cons]

theorem sessionPaths_eq (widgets : List Document) :
    sessionPaths widgets =
      (widgets.filter (fun w => truthyPath w.path)).map (fun w => w.path.getD "") := by
  simpa [sessionPaths] using sessionPaths_loop widgets []

/-- C6: whenever quit reaches termination, the session record written is
exactly the ordered list of paths of the open documents with a truthy
(concrete) path, independent of any prior session file content; documents
with no path are dropped. -/
theorem quit_writes_pathed_session (widgets : List Document)
    (confirm : ConfirmResult) (fs : Option (List String))
    (h : (quit widgets confirm fs).exited = true) :
    (quit widgets confirm fs).sessionFile =
      some ((widgets.filter (fun w => truthyPath w.path)).map (fun w => w.path.getD "")) := by
  cases hm : view_modified widgets with
  | false => simp [quit, hm, sessionPaths_eq]
  | true =>
    by_cases hc : confirm = ConfirmResult.cancel
    · simp [quit, hm, hc] at h
    · simp [quit, hm, hc, sessionPaths_eq]

/-- Witness for C6: of an open pathed document and an unsaved one, only the
pathed one is persisted, overwriting the prior (absent) record. -/
theorem quit_writes_pathed_session_witness :
    (quit [⟨some "a", "t", false⟩, ⟨none, "u", true⟩] ConfirmResult.ok none).sessionFile
      = some ["a"] := by
  rw [quit_writes_pathed_session [⟨some "a", "t", false⟩, ⟨none, "u", true⟩]
    ConfirmResult.ok none (by decide)]
  decide

/-! ## Session restore (C4, C5) -/

theorem restore_loop (tabs : List String) (readFile : String → Option String)
    (acc : List (Option String × String)) :
    tabs.foldl
      (fun acc tab =>
        match readFile tab with
        | none => acc
        | some text => acc ++ [(some tab, text)]) acc =
    acc ++ tabs.filterMap (fun t => (readFile t).map (fun txt => (some t, txt))) := by
  induction tabs generalizing acc with
  | nil => simp
  | cons t ts ih =>
    cases ht : readFile t with
    | none => simp [List.foldl_cons, ht, ih, List.filterMap_cons]
    | some text => simp [List.foldl_cons, ht, ih, List.filterMap_cons]

/-- C4: restore drops each path whose file is missing, without error, and
restores the remaining documents in their original relative order (stated
for sessions where at least one file still exists; an all-missing session
falls to the default-document case of C5). -/
theorem restore_skips_missing (tabs : List String)
    (readFile : String → Option String)
    (h : tabs.filterMap (fun t => (readFile t).map (fun txt => (some t, txt))) ≠ []) :
    restore_session true tabs readFile =
      tabs.filterMap (fun t => (readFile t).map (fun txt => (some t, txt))) := by
  simp only [restore_session, if_true]
  rw [restore_loop tabs readFile [], List.nil_append]
  rw [if_neg (fun hl => h (List.length_eq_zero.mp hl))]

/-- Witness for C4: three paths with the middle file missing restore to
exactly the two existing documents, in order. -/
theorem restore_skips_missing_witness :
    restore_session true ["a", "b", "c"] readFixture =
      [(some "a", "a"), (some "c", "c")] := by
  rw [restore_skips_missing ["a", "b", "c"] readFixture (by decide)]
  decide

/-- C5: whenever restore produces no documents (session file absent, or
every listed file missing, including the empty list), exactly one default
document is created, seeded with the fixed placeholder script and no
path. -/
theorem restore_empty_creates_default (sessionExists : Bool) (tabs : List String)
    (readFile : String → Option String)
    (h : sessionExists = false ∨
      tabs.filterMap (fun t => (readFile t).map (fun txt => (some t, txt))) = []) :
    restore_session sessionExists tabs readFile = [(none, DEFAULT_SCRIPT)] := by
  cases h with
  | inl h => subst h; simp [restore_session]
  | inr h =>
    cases sessionExists with
    | false => simp [restore_session]
    | true =>
      simp only [restore_session, if_true]
      rw [restore_loop tabs readFile [], List.nil_append, h]
      simp

/-- Witness for C5: a session whose files are all missing yields the single
default document. -/
theorem restore_empty_creates_default_witness :
    restore_session true ["a", "b"] readAllMissing = [(none, DEFAULT_SCRIPT)] :=
  restore_empty_creates_default true ["a", "b"] readAllMissing (Or.inr (by decide))

/-! ## Flash with no device (C7) -/

/-- C7: flash with an active document (within the encoder capacity) and no
mass-storage device found shows the could-not-find message and writes no
file. -/
theorem flash_no_device (t : Document) (base : List Record)
    (hcap : (utf8Bytes t.text).length ≤ MAX_SCRIPT) :
    flash (some t) base none =
      ⟨FlashOutcome.deviceNotFound, [],
        ["Could not find an attached BBC micro:bit."]⟩ := by
  simp [flash, hexlify, Nat.not_lt.mpr hcap]

/-- Witness for C7 at a concrete document. -/
theorem flash_no_device_witness :
    flash (some ⟨none, "", false⟩) [] none =
      ⟨FlashOutcome.deviceNotFound, [],
        ["Could not find an attached BBC micro:bit."]⟩ :=
  flash_no_device ⟨none, "", false⟩ [] (by decide)

/-! ## Save (C8) -/

theorem basename_suffix (p : String) : (basename p).data <:+ p.data := by
  have h1 : p.data.reverse.takeWhile (fun c => c != '/') <+: p.data.reverse :=
    List.takeWhile_prefix _
  have h2 : (p.data.reverse.takeWhile (fun c => c != '/')).reverse <:+
      p.data.reverse.reverse := List.reverse_suffix.mpr h1
  rwa [List.reverse_reverse] at h2

theorem pyEndsWith_of_suffix (a b suf : String)
    (h1 : pyEndsWith a suf = true) (h2 : a.data <:+ b.data) :
    pyEndsWith b suf = true := by
  simp only [pyEndsWith, decide_eq_true_eq] at h1 ⊢
  exact h1.trans h2

theorem pyEndsWith_append (q : String) : pyEndsWith (q ++ ".py") ".py" = true := by
  simp only [pyEndsWith, decide_eq_true_eq]
  show (".py").data <:+ (q ++ ".py").data
  have h : (q ++ ".py").data = q.data ++ (".py").data := rfl
  rw [h]
  exact List.suffix_append _ _

/-- C8: save on the active document - with no path and a cancelled dialog
the save is abandoned with nothing written; with a non-empty path (either
already on the document, or supplied by the dialog) the text is written to
a path ending in .py and the modified flag is cleared. -/
theorem save_enforces_convention (tab : Document) (dialog : String) :
    (tab.path = none → dialog = "" →
      save (some tab) dialog = (some { tab with path := none }, [])) ∧
    (∀ q : String, q ≠ "" →
      (tab.path = some q ∨ (tab.path = none ∧ dialog = q)) →
      ∃ p : String, pyEndsWith p ".py" = true ∧
        save (some tab) dialog =
          (some { tab with path := some p, modified := false }, [(p, tab.text)])) := by
  constructor
  · intro hpath hdialog
    subst hdialog
    simp [save, hpath, truthyPath]
  · intro q hq hcase
    have hstep : ∀ tab1 : Document, tab1.path = some q →
        tab1.text = tab.text → tab1.modified = tab.modified →
        ∃ p : String, pyEndsWith p ".py" = true ∧
          ((if truthyPath tab1.path then
              (some { tab1 with
                path := some (if pyEndsWith (basename (tab1.path.getD "")) ".py"
                  then tab1.path.getD "" else tab1.path.getD "" ++ ".py"),
                modified := false },
                [((if pyEndsWith (basename (tab1.path.getD "")) ".py"
                  then tab1.path.getD "" else tab1.path.getD "" ++ ".py"), tab1.text)])
            else (some { tab1 with path := none }, [])) =
            (some { tab with path := some p, modified := false }, [(p, tab.text)])) := by
      intro tab1 h1 htext hmod
      have htruthy : truthyPath tab1.path = true := by
        simp [truthyPath, h1, hq]
      cases hpy : pyEndsWith (basename q) ".py" with
      | true =>
        refine ⟨q, pyEndsWith_of_suffix (basename q) q ".py" hpy (basename_suffix q), ?_⟩
        simp [htruthy, h1, hpy, htext]
        cases tab1
        cases tab
        simp_all
      | false =>
        refine ⟨q ++ ".py", pyEndsWith_append q, ?_⟩
        simp [htruthy, h1, hpy, htext]
        cases tab1
        cases tab
        simp_all
    cases hcase with
    | inl h =>
      have hne : ¬ tab.path = none := by simp [h]
      have := hstep tab h rfl rfl
      simpa [save, hne] using this
    | inr h =>
      have := hstep { tab with path := some dialog } (by simp [h.2]) rfl rfl
      simpa [save, h.1] using this

/-- Witness for C8: a cancelled dialog abandons the save, and a pathed
document is written to a .py path with the modified flag cleared. -/
theorem save_enforces_convention_witness :
    save (some ⟨none, "t", true⟩) "" = (some ⟨none, "t", true⟩, []) ∧
    ∃ p : String, pyEndsWith p ".py" = true ∧
      save (some ⟨some "d/f", "t", true⟩) "" =
        (some ⟨some p, "t", false⟩, [(p, "t")]) :=
  ⟨(save_enforces_convention ⟨none, "t", true⟩ "").1 rfl rfl,
    (save_enforces_convention ⟨some "d/f", "t", true⟩ "").2 "d/f"
      (by decide) (Or.inl rfl)⟩

/-! ## Load (C9, C10) -/

/-- C9 counterexample: on a firmware image with no embedded script region,
load raises the NoScriptFound failure without showing any message to the
user - in particular the claim that the condition is reported to the user
fails (the messages list is empty); no document is created either. -/
theorem load_no_script_counterexample :
    extract_script imgNoScript = Except.error ImgError.NoScriptFound ∧
    load "f.hex" readTextNone readHexFixture =
      ⟨LoadResult.raised ImgError.NoScriptFound, []⟩ :=
  ⟨rfl, rfl⟩

/-- C9 amended: on a firmware image with no embedded script region, load
propagates the NoScriptFound failure uncaught - no document is created and
no message is shown to the user. -/
theorem load_no_script_raises (path : String)
    (readText : String → Option String) (readHex : String → Option (List Record))
    (img : List Record)
    (hpy : pyEndsWith path ".py" = false)
    (hr : readHex path = some img)
    (he : extract_script img = Except.error ImgError.NoScriptFound) :
    load path readText readHex = ⟨LoadResult.raised ImgError.NoScriptFound, []⟩ := by
  simp [load, hpy, hr, he]

/-- Witness for the amended C9 at the concrete no-script image. -/
theorem load_no_script_raises_witness :
    load "f.hex" readTextNone readHexFixture =
      ⟨LoadResult.raised ImgError.NoScriptFound, []⟩ :=
  load_no_script_raises "f.hex" readTextNone readHexFixture imgNoScript
    (by decide) rfl rfl

/-- C10: a cancelled load dialog (empty path) is a silent no-op - the empty
path fails the .py-suffix test, the hex-branch open raises a
FileNotFoundError which is swallowed, no tab is added and no message is
shown. -/
theorem load_cancel_silent (readText : String → Option String)
    (readHex : String → Option (List Record)) (h : readHex "" = none) :
    load "" readText readHex = ⟨LoadResult.silent, []⟩ := by
  have hpy : pyEndsWith "" ".py" = false := by decide
  simp [load, hpy, h]

/-- Witness for C10 at a concrete empty file system. -/
theorem load_cancel_silent_witness :
    load "" readTextNone readHexNone = ⟨LoadResult.silent, []⟩ :=
  load_cancel_silent readTextNone readHexNone rfl

end Mu
